import Mathlib

/-!
Verification of the crossword CSP generator (`generate.py`).

The program fills a crossword by CSP search: node consistency, AC-3 arc
consistency, then backtracking search.  `generate.py` is embedded below as
pure Lean functions; the slot model (`Variable`, `Crossword`) comes from the
companion module `crossword` which only its interface is known for, so it is
modelled from the specification.

Conventions of the shallow embedding:
- Python sets are lists without duplicates; `set.pop()` on a copy picks an
  arbitrary element, fixed here to the head of the list.
- Python dicts with insertion order are association lists (`Assignment`).
- A Python exception (`KeyError` from popping an empty set, or indexing the
  domain map with `None`) is `Except.error`.
- Loops that the source runs to a data-dependent depth take a fuel
  parameter; running out of fuel is the distinct error `"fuel exhausted"`,
  never confused with an exception of the program.
-/

namespace Generate

/-- Modelled from the spec: a slot (`Variable` of `crossword.py`, not under
src/): start position, direction and length; structural equality (spec §3). -/
structure Variable where
  row : Nat
  col : Nat
  down : Bool
  length : Nat
deriving DecidableEq, Repr

/-- A candidate word, a string as a list of characters. -/
abbrev Word := List Char

/-- Modelled from the spec: the read-only crossword input (`Crossword` of
`crossword.py`, not under src/): the variable set, the word list, and the
overlap table giving for a pair of crossing variables the two in-word
indices of the shared square (spec §3, §6). -/
structure Crossword where
  vars : List Variable
  words : List Word
  overlaps : Variable → Variable → Option (Nat × Nat)

/-- Modelled from the spec: `neighbors(v)` returns all variables overlapping
`v` (spec §3: "a neighbors lookup giving, for a variable, all variables it
overlaps"). -/
def Crossword.neighbors (cw : Crossword) (v : Variable) : List Variable :=
  cw.vars.filter (fun n => n != v && (cw.overlaps v n).isSome)

/-- The domain store: each variable's current candidate words
(`self.domains` of `CrosswordCreator`). -/
abbrev Domains := Variable → List Word

/-- A partial assignment: a Python dict in insertion order, keys unique. -/
abbrev Assignment := List (Variable × Word)

/-- The variables assigned by an assignment (the dict's keys). -/
def assignedVars (a : Assignment) : List Variable := a.map (·.1)

/-- Character of `w` at index `k` (Python `w[k]`; all indexings the program
performs are in range, so the default is never observable). -/
def letterAt (w : Word) (k : Nat) : Char := w.getD k ' '

/-- `enforce_node_consistency` (generate.py:96-101): drop from every domain
the words whose length differs from the variable's length. -/
def enforce_node_consistency (doms : Domains) : Domains :=
  fun v => (doms v).filter (fun w => w.length == v.length)

/-- The keep-condition of `revise` (generate.py:118-125): `val_x` is removed
exactly when the mismatch counter reaches `len(domains[y])`, which happens
iff `domains[y]` is nonempty and every value of it mismatches; in
particular an empty `domains[y]` removes nothing. -/
def keptByRevise (dy : List Word) (i j : Nat) (vx : Word) : Bool :=
  dy.isEmpty || dy.any (fun vy => letterAt vy j == letterAt vx i)

/-- `revise` (generate.py:104-126): prune `domains[x]` against `domains[y]`
at the overlap of `x` and `y`; the flag reports whether something was
removed.  The source iterates a copy of `domains[x]` and reads `domains[y]`,
which is unchanged throughout for the arcs the program builds (`x ≠ y`). -/
def revise (cw : Crossword) (doms : Domains) (x y : Variable) :
    Domains × Bool :=
  match cw.overlaps x y with
  | none => (doms, false)
  | some (i, j) =>
    let newDx := (doms x).filter (keptByRevise (doms y) i j)
    (Function.update doms x newDx, newDx.length != (doms x).length)

/-- The initial arc list built by `ac3` (generate.py:139-145) when the
argument is absent or empty: every ordered pair of a variable and one of
its neighbors, without duplicates, in iteration order. -/
def buildArcs (cw : Crossword) : List (Variable × Variable) :=
  cw.vars.foldl
    (fun acc v =>
      (cw.neighbors v).foldl
        (fun acc2 n => if acc2.contains (v, n) then acc2 else acc2 ++ [(v, n)])
        acc)
    []

/-- The Python truthiness test `if not arcs:` (generate.py:139): both `None`
and the empty list trigger rebuilding the full arc list. -/
def initialArcs (cw : Crossword) (arcs : Option (List (Variable × Variable))) :
    List (Variable × Variable) :=
  match arcs with
  | none => buildArcs cw
  | some l => if l.isEmpty then buildArcs cw else l

/-- The worklist loop of `ac3` (generate.py:146-155).  On a revision the
loop fails if `domains[x]` emptied, else re-enqueues `(z, x)` for every
neighbor `z` of `x` other than `y`.  `none` is fuel exhaustion only. -/
def ac3Loop (cw : Crossword) :
    Nat → List (Variable × Variable) → Domains → Option (Bool × Domains)
  | 0, _, _ => none
  | _ + 1, [], doms => some (true, doms)
  | fuel + 1, (x, y) :: rest, doms =>
    let r := revise cw doms x y
    if r.2 then
      if (r.1 x).isEmpty then some (false, r.1)
      else
        ac3Loop cw fuel
          (rest ++ ((cw.neighbors x).filter (fun z => z != y)).map (fun z => (z, x)))
          r.1
    else ac3Loop cw fuel rest r.1

/-- `ac3` (generate.py:130-155). -/
def ac3 (cw : Crossword) (fuel : Nat)
    (arcs : Option (List (Variable × Variable))) (doms : Domains) :
    Option (Bool × Domains) :=
  ac3Loop cw fuel (initialArcs cw arcs) doms

/-- `assignment_complete` (generate.py:158-170): every stored word truthy
(nonempty) and the number of entries equals the number of variables.  (The
source's first inner check, `if key not in assignment` while iterating
`assignment`, is dead code.) -/
def assignment_complete (cw : Crossword) (a : Assignment) : Bool :=
  a.all (fun kv => !kv.2.isEmpty) && a.length == cw.vars.length

/-- Python `self.domains[neighbor].copy().pop()` (generate.py:189): an
arbitrary element of the set, fixed to the list head; `none` is the
`KeyError` raised on an empty set. -/
def popArb (s : List Word) : Option Word := s.head?

/-- The inner neighbor loop of `consistent` (generate.py:185-190): compare
the assigned word of `key` with an arbitrary popped element of each
neighbor's current domain, assigned or not. -/
def neighborChecks (cw : Crossword) (doms : Domains)
    (key : Variable) (val : Word) : List Variable → Except String Bool
  | [] => .ok true
  | n :: rest =>
    match cw.overlaps key n with
    | none => neighborChecks cw doms key val rest
    | some (i, j) =>
      match popArb (doms n) with
      | none => .error "KeyError: pop from an empty set"
      | some w =>
        if letterAt val i != letterAt w j then .ok false
        else neighborChecks cw doms key val rest

/-- The key loop of `consistent` (generate.py:176-192), carrying the `word`
variable: per entry, the length check, then `return False` exactly when the
current word equals the previously remembered one, then the neighbor
checks. -/
def consistentGo (cw : Crossword) (doms : Domains) :
    Option Word → List (Variable × Word) → Except String Bool
  | _, [] => .ok true
  | word, (key, val) :: rest =>
    if key.length != val.length then .ok false
    else if word == some val then .ok false
    else
      match neighborChecks cw doms key val (cw.neighbors key) with
      | .error e => .error e
      | .ok false => .ok false
      | .ok true => consistentGo cw doms (some val) rest

/-- `consistent` (generate.py:171-192). -/
def consistent (cw : Crossword) (doms : Domains) (a : Assignment) :
    Except String Bool :=
  consistentGo cw doms none a

/-- The count `assign_values[value]` computed by `order_domain_values`
(generate.py:201-212): over each neighbor of `var` not in the assignment,
the number of its domain values whose overlap letter EQUALS the letter of
`value` (the source increments on `==`). -/
def matchCount (cw : Crossword) (doms : Domains) (a : Assignment)
    (var : Variable) (value : Word) : Nat :=
  (cw.neighbors var).foldl
    (fun acc n =>
      if (assignedVars a).contains n then acc
      else
        match cw.overlaps var n with
        | none => acc
        | some (i, j) =>
          acc + ((doms n).filter (fun w => letterAt value i == letterAt w j)).length)
    0

/-- Stable insertion of a counted value after all entries with a count not
above it; folding it over a list is Python's stable `sorted(..., key=...)`
ascending by count. -/
def insertByCount (p : Word × Nat) : List (Word × Nat) → List (Word × Nat)
  | [] => [p]
  | q :: rest => if q.2 ≤ p.2 then q :: insertByCount p rest else p :: q :: rest

/-- `order_domain_values` (generate.py:194-214): the domain of `var` sorted
ascending by `matchCount`, ties kept in domain order. -/
def order_domain_values (cw : Crossword) (doms : Domains)
    (var : Variable) (a : Assignment) : List Word :=
  (((doms var).map (fun v => (v, matchCount cw doms a var v))).foldl
      (fun acc p => insertByCount p acc) []).map (·.1)

/-- `select_unassigned_variable` (generate.py:216-241): the executed code
returns the first variable in iteration order that is not in the
assignment; the MRV/degree logic exists only in a commented-out block, so
the domain store, though available, is never read. -/
def select_unassigned_variable (_doms : Domains) (cw : Crossword)
    (a : Assignment) : Option Variable :=
  cw.vars.find? (fun v => !(assignedVars a).contains v)

/-- The value loop of `backtrack` (generate.py:256-264), with the recursive
call abstracted as `bt`.  Python's `if result:` treats both `None` and an
empty dict as failure. -/
def tryValues (cw : Crossword) (doms : Domains)
    (bt : Assignment → Except String (Option Assignment))
    (var : Variable) (a : Assignment) :
    List Word → Except String (Option Assignment)
  | [] => .ok none
  | value :: rest =>
    match consistent cw doms (a ++ [(var, value)]) with
    | .error e => .error e
    | .ok false => tryValues cw doms bt var a rest
    | .ok true =>
      match bt (a ++ [(var, value)]) with
      | .error e => .error e
      | .ok none => tryValues cw doms bt var a rest
      | .ok (some result) =>
        if result.isEmpty then tryValues cw doms bt var a rest
        else .ok (some result)

/-- `backtrack` (generate.py:244-265).  Selecting no variable while the
assignment is incomplete would make Python index the domain dict with
`None` (a `KeyError`). -/
def backtrack (cw : Crossword) (doms : Domains) :
    Nat → Assignment → Except String (Option Assignment)
  | 0, _ => .error "fuel exhausted"
  | fuel + 1, a =>
    if assignment_complete cw a then .ok (some a)
    else
      match select_unassigned_variable doms cw a with
      | none => .error "KeyError: None"
      | some var =>
        tryValues cw doms (backtrack cw doms fuel) var a
          (order_domain_values cw doms var a)

/-- `solve` (generate.py:88-94) together with `__init__` (generate.py:8-16):
domains start as the full word list per variable, then node consistency,
then `ac3()` whose boolean result the source ignores, then backtracking
from the empty assignment. -/
def solve (cw : Crossword) (fuel : Nat) : Except String (Option Assignment) :=
  let doms1 := enforce_node_consistency (fun _ => cw.words)
  match ac3 cw fuel none doms1 with
  | none => .error "fuel exhausted"
  | some (_, doms2) => backtrack cw doms2 fuel []

/-! Concrete instances used to settle the claims. -/

def wab : Word := ['a', 'b']
def wbb : Word := ['b', 'b']
def wax : Word := ['a', 'x']
def way : Word := ['a', 'y']
def wbx : Word := ['b', 'x']
def wcb : Word := ['c', 'b']

/-- An across slot of length 2. -/
def v1 : Variable := ⟨0, 0, false, 2⟩

/-- A down slot of length 2 crossing `v1` at both words' index 0. -/
def v2 : Variable := ⟨0, 0, true, 2⟩

/-- A down slot of length 3 crossing `v1` at both words' index 0. -/
def v3 : Variable := ⟨0, 0, true, 3⟩

/-- Overlap table of the two-slot puzzle on `v1`, `v2`. -/
def ovl12 : Variable → Variable → Option (Nat × Nat) := fun a b =>
  if (a = v1 ∧ b = v2) ∨ (a = v2 ∧ b = v1) then some (0, 0) else none

/-- Two slots of length 2 sharing their first square. -/
def cw2 : Crossword := ⟨[v1, v2], [], ovl12⟩

/-- Overlap table of the two-slot puzzle on `v1`, `v3`. -/
def ovl13 : Variable → Variable → Option (Nat × Nat) := fun a b =>
  if (a = v1 ∧ b = v3) ∨ (a = v3 ∧ b = v1) then some (0, 0) else none

/-- A length-2 slot and a length-3 slot sharing their first square, with a
word list containing only length-2 words. -/
def cw23 : Crossword := ⟨[v1, v3], [wab, wcb], ovl13⟩

/-- Domain store with two candidates for `v1` and three for `v2`. -/
def domsTwoThree : Domains := fun v =>
  if v = v1 then [wbb, wab] else if v = v2 then [wax, way, wbx] else []

/-- Domain store with one candidate each for `v1` and `v2`. -/
def domsOneOne : Domains := fun v =>
  if v = v1 then [wab] else if v = v2 then [wbx] else []

/-- Domain store with two candidates for `v1` and one for `v2`. -/
def domsTwoOne : Domains := fun v =>
  if v = v1 then [wbb, wab] else if v = v2 then [wax] else []

/-- Domain store where `v2`'s domain is already empty. -/
def domsEmptyNbr : Domains := fun v =>
  if v = v1 then [wab] else []

/-- The complete assignment `v1 ↦ "ab"`, `v2 ↦ "bx"`; its two words
disagree at the shared square (`a` vs `b`). -/
def A2 : Assignment := [(v1, wab), (v2, wbx)]

/-! Predicates following the specification's words, for comparison with the
embedded source functions. -/

/-- Follows the spec's words (§4.3): an assignment is spec-consistent iff
every assigned word matches its variable's length, no two different
assigned variables hold equal words, and every pair of assigned variables
with an overlap agrees on the shared letter; unassigned neighbors are not
consulted. -/
def specConsistent (cw : Crossword) (a : Assignment) : Bool :=
  a.all (fun kv => kv.1.length == kv.2.length) &&
  a.all (fun kv => a.all (fun kv2 => kv.1 == kv2.1 || kv.2 != kv2.2)) &&
  a.all (fun kv => a.all (fun kv2 =>
    match cw.overlaps kv.1 kv2.1 with
    | some (i, j) => letterAt kv.2 i == letterAt kv2.2 j
    | none => true))

/-- Follows the spec's words (§4.4): the ruled-out count of `value` for
`var` is the sum over each unassigned neighbor `n`, with overlap `(i, j)`,
of the number of words in `domain(n)` whose shared letter differs. -/
def specRuledOut (cw : Crossword) (doms : Domains) (a : Assignment)
    (var : Variable) (value : Word) : Nat :=
  (cw.neighbors var).foldl
    (fun acc n =>
      if (assignedVars a).contains n then acc
      else
        match cw.overlaps var n with
        | none => acc
        | some (i, j) =>
          acc + ((doms n).filter (fun w => letterAt value i != letterAt w j)).length)
    0

/-! Theorems settling the claims. -/

/-- C1: refuted on the source.  `consistent` does not restrict the overlap
check to assigned neighbors: for the partial assignment `v1 ↦ "ab"` with
`v2` unassigned, it compares `"ab"` against a value popped from the
unassigned neighbor's domain (`"bx"`) and returns false, although the
assignment satisfies every length, uniqueness and assigned-overlap
constraint of the spec's predicate. -/
theorem consistent_consults_unassigned_neighbor_domain :
    (assignedVars [(v1, wab)]).contains v2 = false ∧
    specConsistent cw2 [(v1, wab)] = true ∧
    consistent cw2 domsOneOne [(v1, wab)] = .ok false :=
  ⟨rfl, rfl, rfl⟩

/-- C2: refuted on the source.  The complete assignment `v1 ↦ "ab"`,
`v2 ↦ "bx"` violates the overlap constraint (`a` vs `b` at the shared
square), yet `consistent` accepts it, because it compares each word against
an arbitrary popped domain value of the neighbor instead of the neighbor's
assigned word. -/
theorem consistent_wrong_on_complete_assignment :
    assignment_complete cw2 A2 = true ∧
    consistent cw2 domsTwoThree A2 = .ok true ∧
    specConsistent cw2 A2 = false :=
  ⟨rfl, rfl, rfl⟩

/-- C3: refuted on the source.  With both variables unassigned and
`v2`'s domain strictly smaller than `v1`'s, `select_unassigned_variable`
still returns `v1`, the first variable in iteration order: the executed
code never reads the domain store (the MRV/degree logic is commented out). -/
theorem select_unassigned_variable_ignores_mrv :
    select_unassigned_variable domsTwoOne cw2 [] = some v1 ∧
    (domsTwoOne v2).length < (domsTwoOne v1).length ∧
    (assignedVars ([] : Assignment)).contains v2 = false :=
  ⟨rfl, by decide, rfl⟩

/-- C4: refuted on the source.  `order_domain_values` counts values the
candidate KEEPS for the neighbors (it increments on equality) and sorts
ascending by that count, so the first returned value `"bb"` rules out more
neighbor values (2) than the second `"ab"` (1) — the reverse of the
least-constraining-value order the claim states. -/
theorem order_domain_values_sorts_most_constraining_first :
    order_domain_values cw2 domsTwoThree v1 [] = [wbb, wab] ∧
    specRuledOut cw2 domsTwoThree [] v1 wab <
      specRuledOut cw2 domsTwoThree [] v1 wbb :=
  ⟨rfl, by decide⟩

/-- C5: refuted on the source.  On the well-formed two-slot puzzle `cw23`
whose word list has no word of `v3`'s length, node consistency empties
`v3`'s domain, AC-3 leaves it empty without failing, and the first
`consistent` call of backtracking pops from the empty set: `solve` raises
a `KeyError` instead of returning "no solution" as data. -/
theorem solve_raises_keyerror :
    solve cw23 10 = .error "KeyError: pop from an empty set" :=
  rfl

/-- C6: refuted on the source.  With `v2`'s domain already empty and
`v1`'s not, `ac3()` returns true and leaves `"ab"` in `v1`'s domain even
though it has no supporting value in the empty domain of its neighbor
`v2`: `revise`'s removal test sits inside the loop over `domains[y]`, so
an empty neighbor domain removes nothing. -/
theorem ac3_true_without_support :
    (ac3 cw2 10 none domsEmptyNbr).map (fun r => (r.1, r.2 v1, r.2 v2)) =
      some (true, [wab], ([] : List Word)) ∧
    cw2.overlaps v1 v2 = some (0, 0) :=
  ⟨rfl, rfl⟩

/-- C7: refuted on the source.  Started on the empty assignment,
`backtrack` returns the complete assignment `v1 ↦ "ab"`, `v2 ↦ "bx"`,
which violates the overlap-agreement constraint at the shared square
(`a` vs `b`): the broken `consistent` accepted every step. -/
theorem backtrack_returns_inconsistent_assignment :
    backtrack cw2 domsTwoThree 5 [] = .ok (some A2) ∧
    assignment_complete cw2 A2 = true ∧
    specConsistent cw2 A2 = false :=
  ⟨rfl, rfl, rfl⟩

/-- C8: for distinct variables `x`, `y`, `revise` only ever shrinks
`domain(x)` (subset), returns true exactly when the result is a proper
subset (some word of the old domain is gone), leaves every other
variable's domain — in particular `domain(y)` — unchanged, and is a no-op
returning false when `x` and `y` have no overlap. -/
theorem revise_monotone_spec (cw : Crossword) (doms : Domains)
    (x y : Variable) (hxy : x ≠ y) :
    (revise cw doms x y).1 x ⊆ doms x ∧
    ((revise cw doms x y).2 = true ↔
      ∃ w ∈ doms x, w ∉ (revise cw doms x y).1 x) ∧
    (∀ v, v ≠ x → (revise cw doms x y).1 v = doms v) ∧
    (cw.overlaps x y = none → revise cw doms x y = (doms, false)) := by
  clear hxy
  cases h : cw.overlaps x y with
  | none =>
    refine ⟨?_, ?_, ?_, ?_⟩
    · simp [revise, h]
    · simp [revise, h]
    · intro v _
      simp [revise, h]
    · intro _
      simp [revise, h]
  | some pr =>
    obtain ⟨i, j⟩ := pr
    have h1 : (revise cw doms x y).1 =
        Function.update doms x ((doms x).filter (keptByRevise (doms y) i j)) := by
      simp [revise, h]
    have h2 : (revise cw doms x y).2 =
        (((doms x).filter (keptByRevise (doms y) i j)).length != (doms x).length) := by
      simp [revise, h]
    have hxx : (revise cw doms x y).1 x =
        (doms x).filter (keptByRevise (doms y) i j) := by
      rw [h1, Function.update_same]
    refine ⟨?_, ?_, ?_, ?_⟩
    · rw [hxx]
      exact (List.filter_sublist _).subset
    · rw [h2, hxx, bne_iff_ne]
      constructor
      · intro hne
        have hneq : (doms x).filter (keptByRevise (doms y) i j) ≠ doms x := by
          intro heq
          rw [heq] at hne
          exact hne rfl
        have hnotall : ¬ ∀ a ∈ doms x, keptByRevise (doms y) i j a = true := by
          intro hall
          exact hneq (List.filter_eq_self.mpr hall)
        push_neg at hnotall
        obtain ⟨w, hw, hpw⟩ := hnotall
        exact ⟨w, hw, fun hmem => hpw (List.of_mem_filter hmem)⟩
      · rintro ⟨w, hw, hnw⟩
        intro hlen
        have hsub : List.Sublist ((doms x).filter (keptByRevise (doms y) i j)) (doms x) :=
          List.filter_sublist _
        have heq := hsub.eq_of_length hlen
        rw [← heq] at hw
        exact hnw hw
    · intro v hv
      rw [h1]
      exact Function.update_noteq hv _ _
    · intro hnone
      exact absurd hnone (by simp)

/-- Witness for C8's theorem at a concrete input: the two crossing
length-2 slots with the domain store `domsTwoThree`. -/
theorem revise_monotone_spec_witness :
    (revise cw2 domsTwoThree v1 v2).1 v1 ⊆ domsTwoThree v1 ∧
    (revise cw2 domsTwoThree v1 v2).1 v2 = domsTwoThree v2 :=
  ⟨(revise_monotone_spec cw2 domsTwoThree v1 v2 (by decide)).1,
   (revise_monotone_spec cw2 domsTwoThree v1 v2 (by decide)).2.2.1 v2 (by decide)⟩

/-- C9: after `enforce_node_consistency`, a word is in a variable's domain
iff it was there before and its length equals the variable's length: every
mismatched word is removed and no matching word is. -/
theorem enforce_node_consistency_spec (doms : Domains) (v : Variable) (w : Word) :
    w ∈ enforce_node_consistency doms v ↔ w ∈ doms v ∧ w.length = v.length := by
  simp [enforce_node_consistency]

/-- C10: `ac3` called with an explicitly supplied empty arc list behaves
identically (same return value, same final domains, for every fuel and
every domain store) to `ac3` called with no argument: the Python test
`if not arcs:` treats the empty list like `None` and rebuilds the full arc
list. -/
theorem ac3_empty_arcs_eq_default (cw : Crossword) (fuel : Nat) (doms : Domains) :
    ac3 cw fuel (some []) doms = ac3 cw fuel none doms :=
  rfl

end Generate
